import Mathlib

/-!
Verification of the Kalman filter core (`src/Kalman/kalman.c`) against its
natural-language specification.

The filter core is embedded shallowly:

* The dense-matrix collaborator (`matrix.c` / `cholesky.c`) is not part of the
  sources; its operations are modelled from the specification's contract (§6)
  as pure functions over `Matrix (Fin r) (Fin c) ℚ`.  Each such definition
  carries a doc comment starting with `Modelled from the spec:`.
* The filter state `kalman_t` and measurement block `kalman_measurement_t`
  mirror the C structures; in-place mutation becomes explicit state passing.
* Machine floating point (`matrix_data_t`) is modelled by exact rationals ℚ.
* `kalman_filter_initialize` / `kalman_measurement_initialize` are also
  modelled untyped (runtime rows/cols over flat buffers) to capture the
  dimension wiring literally, including that `kf->B` is created with
  `num_states` rows (kalman.c line 33) while the predict step's branch tests
  `kf->B.rows > 0` (kalman.c line 118).
-/

namespace KalmanCLib

open Matrix

/-! ### Dense-matrix collaborator, modelled from the spec (§6) -/

/-- Modelled from the spec: `matrix_mult_rowvector(A, x, dest)` from the
missing matrix library writes the matrix-vector product `A·x` into `dest`. -/
def matrix_mult_rowvector {r c : ℕ} (A : Matrix (Fin r) (Fin c) ℚ)
    (x : Fin c → ℚ) : Fin r → ℚ :=
  A.mulVec x

/-- Modelled from the spec: `matrix_multadd_rowvector(A, x, dest)` from the
missing matrix library accumulates `A·x` into the existing `dest`. -/
def matrix_multadd_rowvector {r c : ℕ} (A : Matrix (Fin r) (Fin c) ℚ)
    (x : Fin c → ℚ) (dest : Fin r → ℚ) : Fin r → ℚ :=
  dest + A.mulVec x

/-- Modelled from the spec: `matrix_copy(src, dest)` from the missing matrix
library copies between equally-shaped matrices; functionally the identity. -/
def matrix_copy {r c : ℕ} (src : Matrix (Fin r) (Fin c) ℚ) :
    Matrix (Fin r) (Fin c) ℚ :=
  src

/-- Modelled from the spec: vector form of `matrix_copy`. -/
def vector_copy {r : ℕ} (src : Fin r → ℚ) : Fin r → ℚ :=
  src

/-- Modelled from the spec: `matrix_mult(A, B, dest, aux)` from the missing
matrix library writes `A·B` into a fresh `dest`; `aux` is an internal scratch
vector with no effect on the result, so the pure model drops it. -/
def matrix_mult {r c d : ℕ} (A : Matrix (Fin r) (Fin c) ℚ)
    (B : Matrix (Fin c) (Fin d) ℚ) : Matrix (Fin r) (Fin d) ℚ :=
  A * B

/-- Modelled from the spec: `matrix_mult_transb(A, B, dest)` from the missing
matrix library writes `A·Bᵀ` into `dest`. -/
def matrix_mult_transb {r c d : ℕ} (A : Matrix (Fin r) (Fin c) ℚ)
    (B : Matrix (Fin d) (Fin c) ℚ) : Matrix (Fin r) (Fin d) ℚ :=
  A * B.transpose

/-- Modelled from the spec: `matrix_multscale_transb(A, B, scale, dest)` from
the missing matrix library writes `A·Bᵀ·scale` into `dest` (transposed
multiply with a uniform scale factor applied during the operation). -/
def matrix_multscale_transb {r c d : ℕ} (A : Matrix (Fin r) (Fin c) ℚ)
    (B : Matrix (Fin d) (Fin c) ℚ) (scale : ℚ) : Matrix (Fin r) (Fin d) ℚ :=
  scale • (A * B.transpose)

/-- Modelled from the spec: `matrix_multadd_transb(A, B, dest)` from the
missing matrix library accumulates `A·Bᵀ` into the existing `dest`. -/
def matrix_multadd_transb {r c d : ℕ} (A : Matrix (Fin r) (Fin c) ℚ)
    (B : Matrix (Fin d) (Fin c) ℚ) (dest : Matrix (Fin r) (Fin d) ℚ) :
    Matrix (Fin r) (Fin d) ℚ :=
  dest + A * B.transpose

/-- Modelled from the spec: `matrix_sub_inplace_b(A, B)` from the missing
matrix library subtracts `B` from `A` in place, storing the result into `B`'s
slot; the model returns the stored value `A - B` (vector form). -/
def matrix_sub_inplace_b {r : ℕ} (A B : Fin r → ℚ) : Fin r → ℚ :=
  A - B

/-- Modelled from the spec: `matrix_add_inplace(A, B)` from the missing matrix
library accumulates `B` into `A` in place; the model returns `A + B`. -/
def matrix_add_inplace {r c : ℕ} (A B : Matrix (Fin r) (Fin c) ℚ) :
    Matrix (Fin r) (Fin c) ℚ :=
  A + B

/-- Modelled from the spec: `matrix_sub(A, B, dest)` from the missing matrix
library writes `A - B` into `dest`. -/
def matrix_sub {r c : ℕ} (A B : Matrix (Fin r) (Fin c) ℚ) :
    Matrix (Fin r) (Fin c) ℚ :=
  A - B

/-- Modelled from the spec: `cholesky_decompose_lower(S)` followed by
`matrix_invert_lower(S, Sinv)` — both in the missing matrix library — jointly
"decompose `S` via Cholesky (lower-triangular) decomposition, invert the
resulting lower-triangular factor to obtain `S⁻¹`" (§4.4).  The composite is
modelled as the exact matrix inverse over ℚ, written `det⁻¹ • adjugate` so
that it stays computable. -/
def cholesky_invert_lower {k : ℕ} (S : Matrix (Fin k) (Fin k) ℚ) :
    Matrix (Fin k) (Fin k) ℚ :=
  (S.det)⁻¹ • S.adjugate

/-- Over the field ℚ, the modelled Cholesky-then-invert composite agrees with
Mathlib's matrix inverse. -/
theorem cholesky_invert_lower_eq_inv {k : ℕ} (S : Matrix (Fin k) (Fin k) ℚ) :
    cholesky_invert_lower S = S⁻¹ := by
  rw [cholesky_invert_lower, Matrix.inv_def, Ring.inverse_eq_inv']

/-! ### Filter state and measurement block (kalman.h structures) -/

/-- The Kalman filter structure `kalman_t`, with `n` states and `m` inputs.
Field shapes follow `kalman_filter_initialize` (kalman.c lines 29–47). -/
structure kalman_t (n m : ℕ) where
  A : Matrix (Fin n) (Fin n) ℚ
  P : Matrix (Fin n) (Fin n) ℚ
  x : Fin n → ℚ
  B : Matrix (Fin n) (Fin m) ℚ
  Q : Matrix (Fin m) (Fin m) ℚ
  u : Fin m → ℚ
  aux : Fin (max n m) → ℚ
  predicted_x : Fin n → ℚ
  temp_P : Matrix (Fin n) (Fin n) ℚ
  temp_BQ : Matrix (Fin n) (Fin m) ℚ

/-- The measurement structure `kalman_measurement_t`, with `n` states and `k`
measured quantities.  Field shapes follow `kalman_measurement_initialize`
(kalman.c lines 65–71). -/
structure kalman_measurement_t (n k : ℕ) where
  H : Matrix (Fin k) (Fin n) ℚ
  R : Matrix (Fin k) (Fin k) ℚ
  z : Fin k → ℚ
  K : Matrix (Fin n) (Fin k) ℚ
  S : Matrix (Fin k) (Fin k) ℚ
  y : Fin k → ℚ

/-! ### Predict -/

/-- The fading-memory inflation factor computed at kalman.c line 111:
`lambda = 1.0 / (lambda * lambda)`.  The divisor of the division is
`lambda * lambda`. -/
def inflation_factor (lambda : ℚ) : ℚ :=
  1 / (lambda * lambda)

/-- The condition of the branch at kalman.c line 118, `kf->B.rows > 0`,
applied to the row count of `B`.  Note `kf->B` is initialized with
`num_states` rows (kalman.c line 33), so the argument is the number of
states, not the number of inputs. -/
def bq_branch_taken (b_rows : ℕ) : Bool :=
  decide (0 < b_rows)

/-- `kalman_predict(kf, lambda)` (kalman.c lines 82–123), as explicit state
passing: `x` is computed into the predicted-state scratch buffer and copied
back; `P` becomes `(A·P)·Aᵀ` scaled by `1/lambda²` via the `temp_P` scratch;
when the branch on `kf->B.rows > 0` (which equals `0 < n`) is taken,
`(B·Q)·Bᵀ` is accumulated into `P` via the `temp_BQ` scratch. -/
def kalman_predict {n m : ℕ} (kf : kalman_t n m) (lambda : ℚ) :
    kalman_t n m :=
  let xpredicted := matrix_mult_rowvector kf.A kf.x
  let x1 := vector_copy xpredicted
  let lambda1 := inflation_factor lambda
  let P_temp := matrix_mult kf.A kf.P
  let P1 := matrix_multscale_transb P_temp kf.A lambda1
  if bq_branch_taken n then
    let BQ_temp := matrix_mult kf.B kf.Q
    let P2 := matrix_multadd_transb BQ_temp kf.B P1
    { kf with x := x1, P := P2, predicted_x := xpredicted, temp_P := P_temp,
              temp_BQ := BQ_temp }
  else
    { kf with x := x1, P := P1, predicted_x := xpredicted, temp_P := P_temp }

/-- The state propagated by predict is `A·x`, for any dimensions. -/
theorem kalman_predict_x {n m : ℕ} (kf : kalman_t n m) (lambda : ℚ) :
    (kalman_predict kf lambda).x = kf.A.mulVec kf.x := by
  unfold kalman_predict
  split <;> rfl

/-- The predicted-state scratch buffer holds `A·x` after predict. -/
theorem kalman_predict_predicted_x {n m : ℕ} (kf : kalman_t n m)
    (lambda : ℚ) :
    (kalman_predict kf lambda).predicted_x = kf.A.mulVec kf.x := by
  unfold kalman_predict
  split <;> rfl

/-- The temporary-covariance scratch buffer holds `A·P` after predict. -/
theorem kalman_predict_temp_P {n m : ℕ} (kf : kalman_t n m) (lambda : ℚ) :
    (kalman_predict kf lambda).temp_P = kf.A * kf.P := by
  unfold kalman_predict
  split <;> rfl

/-- Covariance after predict: `(1/lambda²) • (A·P·Aᵀ) + B·Q·Bᵀ`, for any
dimensions.  When the `B.rows > 0` branch is skipped (`n = 0`) all matrices
involved are empty, so the unconditional formula still holds. -/
theorem kalman_predict_P {n m : ℕ} (kf : kalman_t n m) (lambda : ℚ) :
    (kalman_predict kf lambda).P =
      inflation_factor lambda • (kf.A * kf.P * kf.A.transpose) +
        kf.B * kf.Q * kf.B.transpose := by
  unfold kalman_predict
  split_ifs with h
  · rfl
  · have hn : n = 0 := by
      by_contra hn
      exact h (by simpa [bq_branch_taken] using Nat.pos_of_ne_zero hn)
    subst hn
    ext i j
    exact i.elim0

/-! ### Correct -/

/-- The C `assert(cond)` macro: execution continues only when the condition
holds; a false condition aborts the program. -/
def c_assert (cond : Bool) : Option Unit :=
  if cond then some () else none

/-- The condition of the assertion at kalman.c line 132, `assert(0)`: the
literal constant `0`, i.e. false. -/
def kalman_correct_assertion : Bool :=
  false

/-- The straight-line computation in the body of `kalman_correct`
(kalman.c lines 133–188), reached only after the entry assertion:
`y = z − H·x`; `S = H·P·Hᵀ + R`; `K = (P·Hᵀ)·S⁻¹` via the modelled
Cholesky-then-invert composite; `x = x + K·y`; `P = P − K·(H·P)` where
`H·P` is recomputed from the not-yet-updated `P`.  In the source the
in-place decomposition overwrites the `S` buffer with its factor inside the
missing library; the spec (§3) instead treats `S` as holding the residual
covariance afterward for diagnostics, and the model follows the spec. -/
def kalman_correct_body {n m k : ℕ} (kf : kalman_t n m)
    (kfm : kalman_measurement_t n k) :
    kalman_t n m × kalman_measurement_t n k :=
  let y0 := matrix_mult_rowvector kfm.H kf.x
  let y := matrix_sub_inplace_b kfm.z y0
  let temp := matrix_mult kfm.H kf.P
  let S0 := matrix_mult_transb temp kfm.H
  let S1 := matrix_add_inplace S0 kfm.R
  let Sinv := cholesky_invert_lower S1
  let temp_PH := matrix_mult_transb kf.P kfm.H
  let K := matrix_mult temp_PH Sinv
  let x1 := matrix_multadd_rowvector K y kf.x
  let temp_HP := matrix_mult kfm.H kf.P
  let temp2 := matrix_mult K temp_HP
  let P1 := matrix_sub kf.P temp2
  ({ kf with x := x1, P := P1 }, { kfm with y := y, S := S1, K := K })

/-- `kalman_correct(kf, kfm)` (kalman.c lines 129–189) as given: the entry
assertion `assert(0)` guards the body, so the body is reached only if the
(false) assertion condition holds. -/
def kalman_correct {n m k : ℕ} (kf : kalman_t n m)
    (kfm : kalman_measurement_t n k) :
    Option (kalman_t n m × kalman_measurement_t n k) :=
  (c_assert kalman_correct_assertion).bind
    (fun _ => some (kalman_correct_body kf kfm))

/-! ### Initialization, untyped model of the buffer wiring -/

/-- A matrix header of the missing library: declared row and column counts
plus the caller-owned backing buffer it references. -/
structure cmatrix where
  rows : ℕ
  cols : ℕ
  data : List ℚ

/-- Modelled from the spec: `matrix_init(mat, rows, cols, buffer)` from the
missing matrix library performs fixed-shape matrix construction over
caller-owned storage — it records the shape and references the buffer,
copying nothing. -/
def matrix_init (rows cols : ℕ) (buffer : List ℚ) : cmatrix :=
  ⟨rows, cols, buffer⟩

/-- The filter structure as wired by initialization: matrix headers plus the
raw auxiliary buffer. -/
structure kalman_model where
  A : cmatrix
  P : cmatrix
  x : cmatrix
  B : cmatrix
  Q : cmatrix
  u : cmatrix
  aux : List ℚ
  predicted_x : cmatrix
  temp_P : cmatrix
  temp_BQ : cmatrix

/-- The measurement structure as wired by initialization. -/
structure kalman_measurement_model where
  H : cmatrix
  R : cmatrix
  z : cmatrix
  K : cmatrix
  S : cmatrix
  y : cmatrix

/-- `kalman_filter_initialize` (kalman.c lines 25–48): binds the ten caller
buffers to their declared shapes, in the source's order and with the source's
dimension arguments — in particular `B` gets `num_states` rows and
`num_inputs` columns (line 33). -/
def kalman_filter_initialize (num_states num_inputs : ℕ)
    (A x B u P Q aux predictedX temp_P temp_BQ : List ℚ) : kalman_model :=
  { A := matrix_init num_states num_states A
    P := matrix_init num_states num_states P
    x := matrix_init num_states 1 x
    B := matrix_init num_states num_inputs B
    Q := matrix_init num_inputs num_inputs Q
    u := matrix_init num_inputs 1 u
    aux := aux
    predicted_x := matrix_init num_states 1 predictedX
    temp_P := matrix_init num_states num_states temp_P
    temp_BQ := matrix_init num_states num_inputs temp_BQ }

/-- `kalman_measurement_initialize` (kalman.c lines 63–72): binds the six
caller buffers to their declared shapes. -/
def kalman_measurement_initialize (num_states num_measurements : ℕ)
    (H z R y S K : List ℚ) : kalman_measurement_model :=
  { H := matrix_init num_measurements num_states H
    R := matrix_init num_measurements num_measurements R
    z := matrix_init num_measurements 1 z
    K := matrix_init num_states num_measurements K
    S := matrix_init num_measurements num_measurements S
    y := matrix_init num_measurements 1 y }

/-! ### Helper lemmas: predict frame conditions -/

/-- Predict leaves the transition matrix `A` unchanged. -/
theorem kalman_predict_A {n m : ℕ} (kf : kalman_t n m) (lambda : ℚ) :
    (kalman_predict kf lambda).A = kf.A := by
  unfold kalman_predict
  split <;> rfl

/-- Predict leaves the input matrix `B` unchanged. -/
theorem kalman_predict_B {n m : ℕ} (kf : kalman_t n m) (lambda : ℚ) :
    (kalman_predict kf lambda).B = kf.B := by
  unfold kalman_predict
  split <;> rfl

/-- Predict leaves the input covariance `Q` unchanged. -/
theorem kalman_predict_Q {n m : ℕ} (kf : kalman_t n m) (lambda : ℚ) :
    (kalman_predict kf lambda).Q = kf.Q := by
  unfold kalman_predict
  split <;> rfl

/-- Predict leaves the input vector `u` unchanged. -/
theorem kalman_predict_u {n m : ℕ} (kf : kalman_t n m) (lambda : ℚ) :
    (kalman_predict kf lambda).u = kf.u := by
  unfold kalman_predict
  split <;> rfl

/-! ### Claim theorems -/

/-- C1: for every populated filter state and every `lambda` with
`0 < lambda ≤ 1`, `kalman_predict` sets `x` to `A·x` (computed into the
predicted-state scratch buffer, then copied back into `x`) and sets `P` to
`(A·P·Aᵀ)·(1/lambda²)` — computed via the intermediate buffer holding `A·P`
followed by the combined multiply-transpose-and-scale step — with `B·Q·Bᵀ`
added afterwards (the added term being zero exactly when no input model is
present). -/
theorem claim_C1_predict_formula {n m : ℕ} (kf : kalman_t n m) (lambda : ℚ)
    (h1 : 0 < lambda) (h2 : lambda ≤ 1) :
    (kalman_predict kf lambda).predicted_x = kf.A.mulVec kf.x ∧
    (kalman_predict kf lambda).x = kf.A.mulVec kf.x ∧
    (kalman_predict kf lambda).temp_P = kf.A * kf.P ∧
    (kalman_predict kf lambda).P =
      inflation_factor lambda • (kf.A * kf.P * kf.A.transpose) +
        kf.B * kf.Q * kf.B.transpose :=
  ⟨kalman_predict_predicted_x kf lambda, kalman_predict_x kf lambda,
   kalman_predict_temp_P kf lambda, kalman_predict_P kf lambda⟩

/-- A concrete 1-state / 1-input filter used to instantiate hypotheses of
the universally quantified theorems. -/
def exKF : kalman_t 1 1 :=
  { A := !![2], P := !![3], x := ![1], B := !![1], Q := !![5], u := ![0],
    aux := fun _ => 0, predicted_x := ![0], temp_P := 0, temp_BQ := 0 }

/-- A concrete 1-measurement block matching `exKF`. -/
def exKFM : kalman_measurement_t 1 1 :=
  { H := !![1], R := !![1], z := ![2], K := 0, S := 0, y := ![0] }

/-- Witness for C1 at the concrete filter `exKF` with `lambda = 1`. -/
theorem claim_C1_predict_formula_witness :
    (0 : ℚ) < 1 ∧ (1 : ℚ) ≤ 1 ∧
    ((kalman_predict exKF 1).predicted_x = exKF.A.mulVec exKF.x ∧
     (kalman_predict exKF 1).x = exKF.A.mulVec exKF.x ∧
     (kalman_predict exKF 1).temp_P = exKF.A * exKF.P ∧
     (kalman_predict exKF 1).P =
       inflation_factor 1 • (exKF.A * exKF.P * exKF.A.transpose) +
         exKF.B * exKF.Q * exKF.B.transpose) :=
  ⟨by norm_num, le_refl 1,
   claim_C1_predict_formula exKF 1 (by norm_num) (le_refl 1)⟩

/-- A filter state produced by the untyped initialization model with one
state and zero inputs: `B` is bound with `num_states = 1` rows and
`num_inputs = 0` columns. -/
def c3_init : kalman_model :=
  kalman_filter_initialize 1 0 [0] [0] [] [] [1] [] [0] [0] [1] []

/-- C3 counterexample: with `num_inputs = 0` (zero-width `B`) and
`num_states = 1`, the `B·Q·Bᵀ` term is not "skipped entirely": the branch at
kalman.c line 118 tests `kf->B.rows > 0`, and `B` is bound with `num_states`
rows, so the branch is taken. -/
theorem claim_C3_counterexample :
    c3_init.B.cols = 0 ∧ bq_branch_taken c3_init.B.rows = true :=
  ⟨rfl, rfl⟩

/-- C3 (amended): with `num_inputs = 0` and `lambda = 1`, predict transforms
`P` exactly to `A·P·Aᵀ` and `x` exactly to `A·x` with no covariance
inflation; the `B·Q·Bᵀ` branch is still executed whenever `num_states > 0`
(the code tests `B`'s row count, which equals `num_states`), but the term it
accumulates is the empty product — the zero matrix — so it contributes
nothing. -/
theorem claim_C3_no_input_identity {n : ℕ} (kf : kalman_t n 0) :
    (kalman_predict kf 1).P = kf.A * kf.P * kf.A.transpose ∧
    (kalman_predict kf 1).x = kf.A.mulVec kf.x := by
  constructor
  · rw [kalman_predict_P]
    have h1 : inflation_factor 1 = 1 := by norm_num [inflation_factor]
    have h2 : kf.B * kf.Q * kf.B.transpose = 0 := by
      ext i j
      simp [Matrix.mul_apply]
    rw [h1, h2, one_smul, add_zero]
  · exact kalman_predict_x kf 1

/-- C4: `kalman_correct` as given never runs to successful completion on any
input: the assertion at function entry (`assert(0)`, kalman.c line 132) has a
literally false condition, so the call unconditionally fails. -/
theorem claim_C4_correct_always_fails :
    kalman_correct_assertion = false ∧
    ∀ (n m k : ℕ) (kf : kalman_t n m) (kfm : kalman_measurement_t n k),
      kalman_correct kf kfm = none :=
  ⟨rfl, fun _ _ _ _ _ => rfl⟩

/-- C6: forming the inflation factor `1/lambda²` at kalman.c line 111
divides by `lambda * lambda`, which is zero when `lambda = 0`; for every
`0 < lambda ≤ 1` the divisor is nonzero and the division is well defined
(the factor times the divisor is 1); and the `lambda = 0` case is neither
detected nor handled — predict applies the same unguarded formula with the
degenerate factor. -/
theorem claim_C6_lambda_zero_division :
    ((0 : ℚ) * 0 = 0) ∧
    (∀ lambda : ℚ, 0 < lambda → lambda ≤ 1 →
      lambda * lambda ≠ 0 ∧ inflation_factor lambda * (lambda * lambda) = 1) ∧
    (∀ (n m : ℕ) (kf : kalman_t n m),
      (kalman_predict kf 0).P =
        inflation_factor 0 • (kf.A * kf.P * kf.A.transpose) +
          kf.B * kf.Q * kf.B.transpose) := by
  refine ⟨by norm_num, fun lambda h1 h2 => ⟨?_, ?_⟩, fun n m kf => kalman_predict_P kf 0⟩
  · positivity
  · have h3 : lambda * lambda ≠ 0 := by positivity
    field_simp [inflation_factor]

/-- Witness for C6 at `lambda = 1`. -/
theorem claim_C6_lambda_zero_division_witness :
    (0 : ℚ) < 1 ∧ (1 : ℚ) ≤ 1 ∧
    ((1 : ℚ) * 1 ≠ 0 ∧ inflation_factor 1 * ((1 : ℚ) * 1) = 1) :=
  ⟨by norm_num, le_refl 1,
   claim_C6_lambda_zero_division.2.1 1 (by norm_num) (le_refl 1)⟩

/-- C10: both initialization entry points are pure wiring — they bind the
caller-supplied buffers to exactly the declared shapes (`A` n×n, `x` n×1,
`B` n×m, `u` m×1, `P` n×n, `Q` m×m; `H` k×n, `z` k×1, `R` k×k, `y` k×1,
`S` k×k, `K` n×k), perform no other computation, and pass every buffer's
contents through unchanged. -/
theorem claim_C10_initialization_pure_wiring :
    (∀ (n m : ℕ) (A x B u P Q aux pX tP tBQ : List ℚ),
      kalman_filter_initialize n m A x B u P Q aux pX tP tBQ =
        { A := ⟨n, n, A⟩, P := ⟨n, n, P⟩, x := ⟨n, 1, x⟩, B := ⟨n, m, B⟩,
          Q := ⟨m, m, Q⟩, u := ⟨m, 1, u⟩, aux := aux,
          predicted_x := ⟨n, 1, pX⟩, temp_P := ⟨n, n, tP⟩,
          temp_BQ := ⟨n, m, tBQ⟩ }) ∧
    (∀ (n k : ℕ) (H z R y S K : List ℚ),
      kalman_measurement_initialize n k H z R y S K =
        { H := ⟨k, n, H⟩, R := ⟨k, k, R⟩, z := ⟨k, 1, z⟩, K := ⟨n, k, K⟩,
          S := ⟨k, k, S⟩, y := ⟨k, 1, y⟩ }) :=
  ⟨fun _ _ _ _ _ _ _ _ _ _ _ _ => rfl, fun _ _ _ _ _ _ _ _ => rfl⟩

/-- C2: for every filter state and measurement block, the correct-step body
computes the innovation `y = z − H·x`, the residual covariance
`S = H·P·Hᵀ + R`, the gain `K = P·Hᵀ·S⁻¹` (via the modelled
Cholesky-then-lower-triangular-inversion composite), then updates the state
as `x = x + K·y` and the covariance as `P = P − K·(H·P)` where `H·P` uses
the pre-update `P`. -/
theorem claim_C2_correct_formulas {n m k : ℕ} (kf : kalman_t n m)
    (kfm : kalman_measurement_t n k) :
    (kalman_correct_body kf kfm).2.y = kfm.z - kfm.H.mulVec kf.x ∧
    (kalman_correct_body kf kfm).2.S =
      kfm.H * kf.P * kfm.H.transpose + kfm.R ∧
    (kalman_correct_body kf kfm).2.K =
      kf.P * kfm.H.transpose *
        (kfm.H * kf.P * kfm.H.transpose + kfm.R)⁻¹ ∧
    (kalman_correct_body kf kfm).1.x =
      kf.x + (kalman_correct_body kf kfm).2.K.mulVec
        ((kalman_correct_body kf kfm).2.y) ∧
    (kalman_correct_body kf kfm).1.P =
      kf.P - (kalman_correct_body kf kfm).2.K * (kfm.H * kf.P) := by
  refine ⟨rfl, rfl, ?_, rfl, rfl⟩
  show matrix_mult (matrix_mult_transb kf.P kfm.H)
      (cholesky_invert_lower
        (matrix_add_inplace
          (matrix_mult_transb (matrix_mult kfm.H kf.P) kfm.H) kfm.R)) = _
  rw [cholesky_invert_lower_eq_inv]
  rfl

/-- A quadratic-form notion of positive semi-definiteness over ℚ, matching
the spec's "symmetric positive semi-definite" invariant on `P`. -/
def is_psd {n : ℕ} (M : Matrix (Fin n) (Fin n) ℚ) : Prop :=
  M.IsSymm ∧ ∀ v : Fin n → ℚ, 0 ≤ Matrix.dotProduct v (M.mulVec v)

/-- C7: for every symmetric positive semi-definite `P`, every `A`, every
symmetric `Q` and every `lambda` with `0 < lambda ≤ 1`, the covariance
produced by predict is again symmetric (exactly, in the rational model). -/
theorem claim_C7_symmetry_preserved {n m : ℕ} (kf : kalman_t n m)
    (lambda : ℚ) (hP : is_psd kf.P) (hQ : kf.Q.IsSymm)
    (h1 : 0 < lambda) (h2 : lambda ≤ 1) :
    ((kalman_predict kf lambda).P).IsSymm := by
  rw [Matrix.IsSymm, kalman_predict_P]
  have e1 : (kf.A * kf.P * kf.A.transpose).transpose =
      kf.A * kf.P * kf.A.transpose := by
    rw [Matrix.transpose_mul, Matrix.transpose_mul, Matrix.transpose_transpose,
      hP.1, ← Matrix.mul_assoc]
  have e2 : (kf.B * kf.Q * kf.B.transpose).transpose =
      kf.B * kf.Q * kf.B.transpose := by
    rw [Matrix.transpose_mul, Matrix.transpose_mul, Matrix.transpose_transpose,
      hQ, ← Matrix.mul_assoc]
  rw [Matrix.transpose_add, Matrix.transpose_smul, e1, e2]

/-- Witness for C7 at the concrete filter `exKF` with `lambda = 1`. -/
theorem claim_C7_symmetry_preserved_witness :
    is_psd exKF.P ∧ (exKF.Q).IsSymm ∧ (0 : ℚ) < 1 ∧ (1 : ℚ) ≤ 1 ∧
    ((kalman_predict exKF 1).P).IsSymm := by
  have hpsd : is_psd exKF.P := by
    constructor
    · ext i j
      fin_cases i <;> fin_cases j <;> rfl
    · intro v
      have hv := mul_self_nonneg (v 0)
      simp only [exKF, Matrix.dotProduct, Matrix.mulVec, Fin.sum_univ_one]
      simp only [Matrix.cons_val', Matrix.cons_val_zero, Matrix.empty_val',
        Matrix.cons_val_fin_one, Matrix.of_apply, Matrix.cons_val_zero]
      nlinarith
  have hQ : (exKF.Q).IsSymm := by
    ext i j
    fin_cases i <;> fin_cases j <;> rfl
  exact ⟨hpsd, hQ, by norm_num, le_refl 1,
    claim_C7_symmetry_preserved exKF 1 hpsd hQ (by norm_num) (le_refl 1)⟩

/-- A degenerate concrete filter with `A = 0`: the fading factor then has no
diagonal entry to inflate. -/
def c8kf : kalman_t 1 0 :=
  { A := !![0], P := !![1], x := ![0], B := 0, Q := 0, u := ![],
    aux := fun _ => 0, predicted_x := ![0], temp_P := 0, temp_BQ := 0 }

/-- C8 counterexample: with `A = [0]`, `P = [1]`, no input, and the fading
factors `lambda1 = 1`, `lambda2 = 1/2` (so `0 < lambda2 < lambda1 ≤ 1`), the
post-predict diagonal entry is 0 under both factors — decreasing lambda does
not strictly increase it. -/
theorem claim_C8_counterexample :
    (0 : ℚ) < 1 / 2 ∧ (1 / 2 : ℚ) < 1 ∧ (1 : ℚ) ≤ 1 ∧
    ¬ ((kalman_predict c8kf 1).P 0 0 <
        (kalman_predict c8kf (1 / 2)).P 0 0) := by
  refine ⟨by norm_num, by norm_num, le_refl 1, ?_⟩
  rw [kalman_predict_P, kalman_predict_P]
  norm_num [c8kf, inflation_factor, Matrix.add_apply, Matrix.smul_apply,
    Matrix.mul_apply, Fin.sum_univ_one]

/-- C8 (amended): for fixed `A, P, B, Q, x` and fading factors
`0 < lambda2 < lambda1 ≤ 1`, a diagonal entry of the post-predict `P` under
`lambda2` is strictly greater than under `lambda1` exactly when the
corresponding diagonal entry of `A·P·Aᵀ` is positive (e.g. it is unchanged
when that entry is zero, as for `A = 0`). -/
theorem claim_C8_fading_monotonicity {n m : ℕ} (kf : kalman_t n m)
    (lambda1 lambda2 : ℚ) (h0 : 0 < lambda2) (h21 : lambda2 < lambda1)
    (h11 : lambda1 ≤ 1) (i : Fin n) :
    ((kalman_predict kf lambda1).P i i < (kalman_predict kf lambda2).P i i ↔
      0 < (kf.A * kf.P * kf.A.transpose) i i) := by
  have h1 : 0 < lambda1 := h0.trans h21
  have hsq : lambda2 * lambda2 < lambda1 * lambda1 := by nlinarith
  have hf : inflation_factor lambda1 < inflation_factor lambda2 := by
    unfold inflation_factor
    exact one_div_lt_one_div_of_lt (by positivity) hsq
  rw [kalman_predict_P, kalman_predict_P]
  simp only [Matrix.add_apply, Matrix.smul_apply, smul_eq_mul]
  constructor
  · intro hlt
    by_contra hM
    push_neg at hM
    nlinarith
  · intro hM
    nlinarith [mul_pos (sub_pos.mpr hf) hM]

/-- Witness for the amended C8 at the concrete filter `exKF` with
`lambda1 = 1`, `lambda2 = 1/2`, diagonal index 0. -/
theorem claim_C8_fading_monotonicity_witness :
    (0 : ℚ) < 1 / 2 ∧ (1 / 2 : ℚ) < 1 ∧ (1 : ℚ) ≤ 1 ∧
    ((kalman_predict exKF 1).P 0 0 < (kalman_predict exKF (1 / 2)).P 0 0 ↔
      0 < (exKF.A * exKF.P * exKF.A.transpose) 0 0) :=
  ⟨by norm_num, by norm_num, le_refl 1,
   claim_C8_fading_monotonicity exKF 1 (1 / 2) (by norm_num) (by norm_num)
     (le_refl 1) 0⟩

/-- C9: for every filter state and valid lambda, predict leaves `A`, `B`,
`Q` and `u` unchanged; the produced `x` and `P` do not depend on the prior
contents of `u` or of the four scratch buffers; and the correct-step body
likewise never reads `u`. -/
theorem claim_C9_frame {n m k : ℕ} (kf : kalman_t n m)
    (kfm : kalman_measurement_t n k) (lambda : ℚ)
    (h1 : 0 < lambda) (h2 : lambda ≤ 1)
    (u2 : Fin m → ℚ) (aux2 : Fin (max n m) → ℚ) (px2 : Fin n → ℚ)
    (tP2 : Matrix (Fin n) (Fin n) ℚ) (tBQ2 : Matrix (Fin n) (Fin m) ℚ) :
    ((kalman_predict kf lambda).A = kf.A ∧
     (kalman_predict kf lambda).B = kf.B ∧
     (kalman_predict kf lambda).Q = kf.Q ∧
     (kalman_predict kf lambda).u = kf.u) ∧
    ((kalman_predict { kf with u := u2, aux := aux2, predicted_x := px2, temp_P := tP2, temp_BQ := tBQ2 } lambda).x =
       (kalman_predict kf lambda).x ∧
     (kalman_predict { kf with u := u2, aux := aux2, predicted_x := px2, temp_P := tP2, temp_BQ := tBQ2 } lambda).P =
       (kalman_predict kf lambda).P) ∧
    ((kalman_correct_body { kf with u := u2 } kfm).1.x =
       (kalman_correct_body kf kfm).1.x ∧
     (kalman_correct_body { kf with u := u2 } kfm).1.P =
       (kalman_correct_body kf kfm).1.P ∧
     (kalman_correct_body { kf with u := u2 } kfm).2 =
       (kalman_correct_body kf kfm).2) := by
  refine ⟨⟨kalman_predict_A kf lambda, kalman_predict_B kf lambda,
    kalman_predict_Q kf lambda, kalman_predict_u kf lambda⟩, ⟨?_, ?_⟩,
    rfl, rfl, rfl⟩
  · rw [kalman_predict_x, kalman_predict_x]
  · rw [kalman_predict_P, kalman_predict_P]

/-- Witness for C9 at the concrete filter `exKF`, measurement `exKFM`,
`lambda = 1` and replaced scratch/input contents. -/
theorem claim_C9_frame_witness :
    (0 : ℚ) < 1 ∧ (1 : ℚ) ≤ 1 ∧
    (((kalman_predict exKF 1).A = exKF.A ∧
      (kalman_predict exKF 1).B = exKF.B ∧
      (kalman_predict exKF 1).Q = exKF.Q ∧
      (kalman_predict exKF 1).u = exKF.u) ∧
     ((kalman_predict { exKF with u := ![7], aux := fun _ => 7, predicted_x := ![7], temp_P := !![7], temp_BQ := !![7] } 1).x =
        (kalman_predict exKF 1).x ∧
      (kalman_predict { exKF with u := ![7], aux := fun _ => 7, predicted_x := ![7], temp_P := !![7], temp_BQ := !![7] } 1).P =
        (kalman_predict exKF 1).P) ∧
     ((kalman_correct_body { exKF with u := ![7] } exKFM).1.x =
        (kalman_correct_body exKF exKFM).1.x ∧
      (kalman_correct_body { exKF with u := ![7] } exKFM).1.P =
        (kalman_correct_body exKF exKFM).1.P ∧
      (kalman_correct_body { exKF with u := ![7] } exKFM).2 =
        (kalman_correct_body exKF exKFM).2)) :=
  ⟨by norm_num, le_refl 1,
   claim_C9_frame exKF exKFM 1 (by norm_num) (le_refl 1) ![7] (fun _ => 7)
     ![7] !![7] !![7]⟩

/-- The 1-dimensional constant-value filter of the worked example: `A=[1]`,
`B` empty (`num_inputs = 0`), `x0=[0]`, `P0=[1]`. -/
def c5kf : kalman_t 1 0 :=
  { A := !![1], P := !![1], x := ![0], B := 0, Q := 0, u := ![],
    aux := fun _ => 0, predicted_x := ![0], temp_P := 0, temp_BQ := 0 }

/-- The worked example's measurement block: `H=[1]`, `R=[1]`, `z=[2]`. -/
def c5kfm : kalman_measurement_t 1 1 :=
  { H := !![1], R := !![1], z := ![2], K := 0, S := 0, y := ![0] }

/-- C5: for the scalar constant-value filter (`A=[1]`, `B` empty, `x0=[0]`,
`P0=[1]`, `H=[1]`, `R=[1]`, `z=[2]`), one predict with `lambda = 1` leaves
`x = [0]`, `P = [1]`; the subsequent correct step computes `y = [2]`,
`S = [2]`, `K = [0.5]`, `x = [1]`, `P = [0.5]`. -/
theorem claim_C5_scalar_example :
    (kalman_predict c5kf 1).x 0 = 0 ∧
    (kalman_predict c5kf 1).P 0 0 = 1 ∧
    (kalman_correct_body (kalman_predict c5kf 1) c5kfm).2.y 0 = 2 ∧
    (kalman_correct_body (kalman_predict c5kf 1) c5kfm).2.S 0 0 = 2 ∧
    (kalman_correct_body (kalman_predict c5kf 1) c5kfm).2.K 0 0 = 1 / 2 ∧
    (kalman_correct_body (kalman_predict c5kf 1) c5kfm).1.x 0 = 1 ∧
    (kalman_correct_body (kalman_predict c5kf 1) c5kfm).1.P 0 0 = 1 / 2 := by
  have hx : (kalman_predict c5kf 1).x = ![0] := by
    rw [kalman_predict_x]
    ext i
    fin_cases i
    simp [c5kf, Matrix.mulVec, Matrix.dotProduct, Fin.sum_univ_one]
  have hP : (kalman_predict c5kf 1).P = !![1] := by
    rw [kalman_predict_P]
    ext i j
    fin_cases i
    fin_cases j
    simp [c5kf, inflation_factor, Matrix.mul_apply, Fin.sum_univ_one,
      Matrix.vecHead, Matrix.vecTail]
  refine ⟨by rw [hx]; rfl, by rw [hP]; rfl, ?_, ?_, ?_, ?_, ?_⟩ <;>
    simp only [kalman_correct_body, hx, hP] <;>
    simp [matrix_mult, matrix_mult_rowvector, matrix_mult_transb,
      matrix_add_inplace, matrix_sub_inplace_b, matrix_multadd_rowvector,
      matrix_sub, cholesky_invert_lower, Matrix.mul_apply, Matrix.mulVec,
      Matrix.dotProduct, Fin.sum_univ_one, Matrix.det_fin_one,
      Matrix.adjugate_fin_one, Matrix.smul_apply, Matrix.one_apply,
      Matrix.vecHead, Matrix.vecTail, Matrix.cons_val_zero, Matrix.of_apply,
      Matrix.cons_val', c5kfm] <;>
    norm_num

end KalmanCLib
